import Mathlib

/-!
Shallow embedding of the data-quality evaluation and monitoring engine of the
Energy-Data-Pipeline repository (src/services/data_quality_service.py,
src/services/quality_monitor.py, src/repositories/quality_repository.py).

Modelling conventions:
* Python floats are modelled as exact rationals (ℚ); `round(x, 2)` is modelled
  by `round2`, round-half-to-even at two decimals, matching CPython's rounding
  mode on exact values.
* Timestamps (`datetime`) are modelled as `Nat` seconds on a global clock.
* SQL `NULL`-able columns are `Option` fields; SQL comparison predicates reject
  `NULL` (a `none` field never satisfies a range predicate), matching the
  three-valued logic of the queries in `_check_energy_data_quality` /
  `_check_weather_data_quality`.
* Python dict results are association lists `List (String × DVal)` so that
  presence/absence of a key is observable, exactly as in the source's
  `dict.get(key, default)` accesses.
* Database I/O failure is injected through boolean fault flags on the session;
  the transactional commit/rollback of `_store_quality_metrics` is modelled at
  the granularity of committed rows (commit appends all rows, rollback leaves
  the committed rows untouched).
-/

namespace EnergyPipeline

/-- CPython `round(x, 2)`: round to 2 decimal places, ties to even. -/
def round2 (x : ℚ) : ℚ :=
  let y := x * 100
  let f : ℤ := ⌊y⌋
  let r : ℚ := y - f
  let n : ℤ :=
    if r < 1/2 then f
    else if 1/2 < r then f + 1
    else if f % 2 = 0 then f else f + 1
  (n : ℚ) / 100

/-- A row of the monitored `energy_consumption` table
(src/database/models.py); only the columns read by the quality engine. -/
structure EnergyRecord where
  id : Nat
  region : Option String
  timestamp : Nat
  energy_type : Option String
  consumption_mwh : Option ℚ
  created_at : Nat
deriving DecidableEq

/-- A row of the monitored `weather_data` table; only the columns read by the
quality engine. -/
structure WeatherRecord where
  id : Nat
  region : Option String
  timestamp : Nat
  temperature : Option ℚ
  humidity : Option ℚ
  pressure : Option ℚ
deriving DecidableEq

/-- A record-level issue yielded by `_find_energy_data_issues`.  The
`description` / `detected_at` entries of the source dict are presentation-only
strings/timestamps and are not modelled. -/
structure EnergyIssue where
  issue_type : String
  severity : String
  record_id : Nat
deriving DecidableEq

/-- Values stored in a Python result dict: float scores, integer counts, or a
list of issue dicts. -/
inductive DVal where
  | q (x : ℚ)
  | n (x : Nat)
  | issues (l : List EnergyIssue)
deriving DecidableEq

/-- Python `d.get(k, default)` for a float-valued key. -/
def getScore (d : List (String × DVal)) (k : String) (default : ℚ) : ℚ :=
  match d.lookup k with
  | some (.q x) => x
  | some (.n x) => (x : ℚ)
  | _ => default

/-- Python `d.get(k, default)` for an integer-valued key. -/
def getCount (d : List (String × DVal)) (k : String) (default : Nat) : Nat :=
  match d.lookup k with
  | some (.n x) => x
  | _ => default

/-- Python `d.get("issues", [])`. -/
def getIssues (d : List (String × DVal)) : List EnergyIssue :=
  match d.lookup "issues" with
  | some (.issues l) => l
  | _ => []

/-- Window filter `EnergyConsumption.timestamp >= start_date`. -/
def energyInWindow (start : Nat) (r : EnergyRecord) : Bool :=
  start ≤ r.timestamp

/-- Completeness predicate of the energy completeness query: all required
columns non-null (`consumption_mwh`, `region`, `energy_type`). -/
def energyComplete (r : EnergyRecord) : Bool :=
  r.consumption_mwh.isSome && r.region.isSome && r.energy_type.isSome

/-- Accuracy predicate of the energy accuracy query:
`0 <= consumption_mwh <= 1000000` (NULL fails) and `timestamp <= now`. -/
def energyAccurate (now : Nat) (r : EnergyRecord) : Bool :=
  (match r.consumption_mwh with
   | some c => decide (0 ≤ c) && decide (c ≤ 1000000)
   | none => false) && decide (r.timestamp ≤ now)

/-- The GROUP BY key of the duplicate-detection query:
`(region, timestamp, energy_type)`. -/
def keyOf (r : EnergyRecord) : Option String × Nat × Option String :=
  (r.region, r.timestamp, r.energy_type)

/-- Model of `duplicate_count`: over groups sharing `(region, timestamp, energy_type)`
with more than one member (the HAVING clause), sum `group_size - 1`. -/
def duplicate_count (rs : List EnergyRecord) : Nat :=
  let ks := rs.map keyOf
  (((ks.dedup).filter (fun k => 1 < ks.count k)).map (fun k => ks.count k - 1)).sum

/-- Line-by-line model of the `completeness_score` expression (before final
rounding): `(complete_records / total_records) * 100 if total_records > 0 else 0`. -/
def energyCompletenessScore (rs : List EnergyRecord) : ℚ :=
  let total := rs.length
  let complete := (rs.filter energyComplete).length
  if 0 < total then ((complete : ℚ) / total) * 100 else 0

/-- The `accuracy_score` expression (before final rounding). -/
def energyAccuracyScore (now : Nat) (rs : List EnergyRecord) : ℚ :=
  let total := rs.length
  let accurate := (rs.filter (energyAccurate now)).length
  if 0 < total then ((accurate : ℚ) / total) * 100 else 0

/-- The `consistency_score` expression (before final rounding):
`((total_records - duplicate_count) / total_records) * 100 if total_records > 0 else 0`. -/
def consistency_score (rs : List EnergyRecord) : ℚ :=
  let total := rs.length
  let dup := duplicate_count rs
  if 0 < total then (((total : ℚ) - (dup : ℚ)) / total) * 100 else 0

/-- Model of `_find_energy_data_issues`: null consumption (HIGH), negative consumption
(MEDIUM), consumption above 100000 (LOW); each sampled with LIMIT 10. -/
def find_energy_data_issues (rs : List EnergyRecord) : List EnergyIssue :=
  ((rs.filter (fun r => r.consumption_mwh.isNone)).take 10).map
    (fun r => ⟨"null_consumption", "HIGH", r.id⟩)
  ++ ((rs.filter (fun r =>
        match r.consumption_mwh with
        | some c => decide (c < 0)
        | none => false)).take 10).map
    (fun r => ⟨"negative_consumption", "MEDIUM", r.id⟩)
  ++ ((rs.filter (fun r =>
        match r.consumption_mwh with
        | some c => decide (100000 < c)
        | none => false)).take 10).map
    (fun r => ⟨"potential_outlier", "LOW", r.id⟩)

/-- Model of `_check_energy_data_quality` as a function of the table rows, the window
start (`now - 30 days`) and the current time.  Returns the result dict. -/
def check_energy_data_quality (rows : List EnergyRecord) (start now : Nat) :
    List (String × DVal) :=
  let wrows := rows.filter (energyInWindow start)
  let total := wrows.length
  if total = 0 then
    [("completeness_score", .q 0), ("accuracy_score", .q 0),
     ("consistency_score", .q 0), ("total_records", .n 0), ("issues", .issues [])]
  else
    let complete := (wrows.filter energyComplete).length
    let accurate := (wrows.filter (energyAccurate now)).length
    [("completeness_score", .q (round2 (energyCompletenessScore wrows))),
     ("accuracy_score", .q (round2 (energyAccuracyScore now wrows))),
     ("consistency_score", .q (round2 (consistency_score wrows))),
     ("total_records", .n total),
     ("complete_records", .n complete),
     ("accurate_records", .n accurate),
     ("duplicate_count", .n (duplicate_count wrows)),
     ("issues", .issues (find_energy_data_issues wrows))]

/-- Weather completeness predicate: `temperature` and `region` non-null. -/
def weatherComplete (r : WeatherRecord) : Bool :=
  r.temperature.isSome && r.region.isSome

/-- Weather accuracy predicate: `temperature BETWEEN -50 AND 150`,
`humidity BETWEEN 0 AND 100`, `pressure > 0` (NULL fails each). -/
def weatherAccurate (r : WeatherRecord) : Bool :=
  (match r.temperature with
   | some t => decide (-50 ≤ t) && decide (t ≤ 150)
   | none => false) &&
  (match r.humidity with
   | some h => decide (0 ≤ h) && decide (h ≤ 100)
   | none => false) &&
  (match r.pressure with
   | some p => decide (0 < p)
   | none => false)

/-- Model of `_check_weather_data_quality` as a function of the table rows and the
window start (`now - 7 days`).  Note: no consistency score is ever computed
for weather, and the zero-record dict has no `consistency_score` key. -/
def check_weather_data_quality (rows : List WeatherRecord) (start : Nat) :
    List (String × DVal) :=
  let wrows := rows.filter (fun r => start ≤ r.timestamp)
  let total := wrows.length
  if total = 0 then
    [("completeness_score", .q 0), ("accuracy_score", .q 0),
     ("total_records", .n 0), ("issues", .issues [])]
  else
    let complete := (wrows.filter weatherComplete).length
    let accurate := (wrows.filter weatherAccurate).length
    [("completeness_score", .q (round2 (((complete : ℚ) / total) * 100))),
     ("accuracy_score", .q (round2 (((accurate : ℚ) / total) * 100))),
     ("total_records", .n total),
     ("complete_records", .n complete),
     ("accurate_records", .n accurate),
     ("issues", .issues [])]

/-- Result of `_check_system_health`.  The exception branch of the source
returns an extra "error" string entry, not modelled. -/
structure SystemHealthResult where
  health_score : ℚ
  database_health : ℚ
  data_freshness : ℚ
  last_record_time : Option Nat
deriving DecidableEq

/-- A committed `DataQualityMetrics` row (`_store_quality_metrics` /
`QualityRepository.store_quality_metric`). -/
structure MetricRow where
  table_name : String
  metric_name : String
  metric_value : ℚ
  total_records : Nat
  valid_records : Nat
  invalid_records : ℤ
  calculated_at : Nat
deriving DecidableEq

/-- The database session.  `energyRows`/`weatherRows` are the monitored
tables; `metrics` are the committed quality-metric rows.  The `fail*` flags
inject I/O failures: a query on a failing table raises, a failing commit makes
`db.commit()` raise (after which the source rolls back). -/
structure Session where
  energyRows : List EnergyRecord
  weatherRows : List WeatherRecord
  metrics : List MetricRow
  failEnergyQuery : Bool
  failWeatherQuery : Bool
  failSystemQuery : Bool
  failCommit : Bool
deriving DecidableEq

/-- Model of `_check_system_health`: database health is 100 when `SELECT 1` works;
freshness decays 2 points per hour since the newest `created_at` over the
whole energy table (floored at 0, 0 when the table is empty); the health score
is the mean of the two.  Its own exceptions are caught internally and yield
all-zero scores, so this check never raises to the caller. -/
def check_system_health (s : Session) (now : Nat) : SystemHealthResult :=
  if s.failSystemQuery then
    ⟨0, 0, 0, none⟩
  else
    match ((s.energyRows.map (fun r => r.created_at)).max? : Option Nat) with
    | some last =>
        let hours : ℚ := ((now : ℚ) - (last : ℚ)) / 3600
        let freshness : ℚ := max 0 (100 - hours * 2)
        ⟨round2 ((100 + freshness) / 2), 100, round2 freshness, some last⟩
    | none => ⟨round2 ((100 + 0) / 2), 100, 0, none⟩

/-- Model of `_calculate_overall_score`: arithmetic mean of the non-None scores,
rounded to 2 decimals; 0.0 when the list is empty or all entries are None. -/
def calculate_overall_score (scores : List (Option ℚ)) : ℚ :=
  if scores = [] then 0
  else
    let valid := scores.filterMap id
    if valid = [] then 0
    else round2 (valid.sum / (valid.length : ℚ))

/-- The five `DataQualityMetrics` rows built by `_store_quality_metrics` from
a pass's energy and weather dicts (three energy rows, two weather rows). -/
def metricRowsOf (em wm : List (String × DVal)) (now : Nat) : List MetricRow :=
  let erow := fun (name : String) (v : ℚ) =>
    MetricRow.mk "energy_consumption" name v
      (getCount em "total_records" 0) (getCount em "complete_records" 0)
      ((getCount em "total_records" 0 : ℤ) - (getCount em "complete_records" 0 : ℤ))
      now
  let wrow := fun (name : String) (v : ℚ) =>
    MetricRow.mk "weather_data" name v
      (getCount wm "total_records" 0) (getCount wm "complete_records" 0)
      ((getCount wm "total_records" 0 : ℤ) - (getCount wm "complete_records" 0 : ℤ))
      now
  [erow "completeness" (getScore em "completeness_score" 0),
   erow "accuracy" (getScore em "accuracy_score" 0),
   erow "consistency" (getScore em "consistency_score" 0),
   wrow "completeness" (getScore wm "completeness_score" 0),
   wrow "accuracy" (getScore wm "accuracy_score" 0)]

/-- Model of `_store_quality_metrics`: adds the five rows and commits.  On a commit
failure it rolls back (no row of the pass is committed) and swallows the
exception — it never re-raises. -/
def store_quality_metrics (s : Session) (em wm : List (String × DVal))
    (now : Nat) : Session :=
  if s.failCommit then s
  else { s with metrics := s.metrics ++ metricRowsOf em wm now }

/-- The `overall_metrics` dict returned by `run_comprehensive_quality_check`. -/
structure OverallMetrics where
  energy_data : List (String × DVal)
  weather_data : List (String × DVal)
  system_health : SystemHealthResult
  overall_score : ℚ
  check_timestamp : Nat
deriving DecidableEq

/-- A DB query on a failing energy table raises. -/
def checkEnergyDb (s : Session) (start now : Nat) :
    Except String (List (String × DVal)) :=
  if s.failEnergyQuery then .error "energy query failed"
  else .ok (check_energy_data_quality s.energyRows start now)

/-- A DB query on a failing weather table raises. -/
def checkWeatherDb (s : Session) (start : Nat) :
    Except String (List (String × DVal)) :=
  if s.failWeatherQuery then .error "weather query failed"
  else .ok (check_weather_data_quality s.weatherRows start)

/-- Model of `run_comprehensive_quality_check`: run the three sub-checks, compute the
overall score as `_calculate_overall_score([energy completeness, weather
completeness, system health])`, store the metrics, and return the result.
Any sub-check exception propagates (re-raised at the top) before
`_store_quality_metrics` is ever reached, leaving the session untouched. -/
def run_comprehensive_quality_check (s : Session) (start30 start7 now : Nat) :
    Except String OverallMetrics × Session :=
  match checkEnergyDb s start30 now with
  | .error e => (.error e, s)
  | .ok em =>
    match checkWeatherDb s start7 with
    | .error e => (.error e, s)
    | .ok wm =>
      let sys := check_system_health s now
      let ov : OverallMetrics :=
        ⟨em, wm, sys,
         calculate_overall_score
           [some (getScore em "completeness_score" 0),
            some (getScore wm "completeness_score" 0),
            some sys.health_score],
         now⟩
      (.ok ov, store_quality_metrics s em wm now)

/-- An alert written by `_create_quality_alert`: always table
`system_monitoring`, type `quality_degradation`; only the severity and the
message vary.  Message text is built from the table name and dimension. -/
structure Alert where
  severity : String
  table_name : String
  issue_type : String
  message : String
deriving DecidableEq

/-- The per-table branch of `_check_quality_alerts`: a MEDIUM alert when
completeness < 80 and, independently, a MEDIUM alert when accuracy < 85. -/
def tableAlerts (name : String) (completeness accuracy : ℚ) : List Alert :=
  (if completeness < 80 then
     [⟨"MEDIUM", "system_monitoring", "quality_degradation",
       name ++ " completeness dropped"⟩]
   else [])
  ++ (if accuracy < 85 then
        [⟨"MEDIUM", "system_monitoring", "quality_degradation",
          name ++ " accuracy dropped"⟩]
      else [])

/-- Model of `_check_quality_alerts` as the list of alerts it creates, in creation
order, given the pass's overall score and the per-table scores (the
`dict.get` defaults never fire: both score keys are present in every dict
the checks produce). -/
def check_quality_alerts (threshold overall eC eA wC wA : ℚ) : List Alert :=
  (if overall < threshold then
     [⟨"HIGH", "system_monitoring", "quality_degradation",
       "Overall data quality score dropped below threshold"⟩]
   else [])
  ++ tableAlerts "energy_consumption" eC eA
  ++ tableAlerts "weather_data" wC wA

/-- The default alert threshold set in `QualityMonitor.__init__`. -/
def default_alert_threshold : ℚ := 70

/-- The default check interval (minutes) set in `QualityMonitor.__init__`. -/
def default_check_interval_minutes : Nat := 60

/-- Process-lifetime monitor state.  `activeTasks` counts live background
monitoring tasks (`asyncio.create_task(self._monitoring_loop())` spawns one,
cancellation in `stop_monitoring` ends it). -/
structure QualityMonitor where
  is_running : Bool
  activeTasks : Nat
  check_interval_minutes : Nat
  alert_threshold : ℚ
deriving DecidableEq

/-- Model of `QualityMonitor.__init__`: not running, no task, 60-minute cadence,
threshold 70.0. -/
def initialMonitor : QualityMonitor :=
  ⟨false, 0, default_check_interval_minutes, default_alert_threshold⟩

/-- Model of `start_monitoring`: if already running, log a warning and return
(no task spawned); otherwise set running and spawn the loop task. -/
def start_monitoring (m : QualityMonitor) : QualityMonitor :=
  if m.is_running then m
  else { m with is_running := true, activeTasks := m.activeTasks + 1 }

/-- Model of `stop_monitoring`: if not running, return; otherwise clear the running
flag, cancel the background task and await its termination. -/
def stop_monitoring (m : QualityMonitor) : QualityMonitor :=
  if m.is_running then
    { m with is_running := false, activeTasks := m.activeTasks - 1 }
  else m

/-- The dict returned by `get_monitoring_status`. -/
structure MonitoringStatus where
  is_running : Bool
  check_interval_minutes : Nat
  alert_threshold : ℚ
  last_check : Option Nat
deriving DecidableEq

/-- Model of `get_monitoring_status`: a read-only projection of the monitor state. -/
def get_monitoring_status (m : QualityMonitor) (now : Nat) : MonitoringStatus :=
  ⟨m.is_running, m.check_interval_minutes, m.alert_threshold,
   if m.is_running then some now else none⟩

/-- The monitor invariant: exactly one live background task while RUNNING,
none while STOPPED. -/
def MonitorInv (m : QualityMonitor) : Prop :=
  m.activeTasks = if m.is_running then 1 else 0

instance (m : QualityMonitor) : Decidable (MonitorInv m) := by
  unfold MonitorInv; infer_instance

/-- Outcome of one body of the `while` loop in `_monitoring_loop` (the `try`
block: one scheduled check followed by the inter-check sleep). -/
inductive BodyOutcome where
  | ok
  | cancelled
  | err
deriving DecidableEq

/-- What the loop does after one body: keep looping after a sleep of the
given number of seconds, or exit. -/
inductive StepResult where
  | continueAfter (sleepSeconds : Nat)
  | exitLoop
deriving DecidableEq

/-- One iteration of `_monitoring_loop`: success sleeps
`check_interval_minutes * 60` inside the body and continues; cancellation
breaks; any other exception is caught, logged, and the loop sleeps 300
seconds (5 minutes) before retrying. -/
def monitoringStep (interval_minutes : Nat) : BodyOutcome → StepResult
  | .ok => .continueAfter (interval_minutes * 60)
  | .cancelled => .exitLoop
  | .err => .continueAfter 300

/-- Model of `_monitoring_loop` over a trace of body outcomes: the sequence of sleeps
the loop performs; it stops consuming outcomes only at a cancellation. -/
def monitoringLoop (interval_minutes : Nat) : List BodyOutcome → List Nat
  | [] => []
  | o :: rest =>
    match monitoringStep interval_minutes o with
    | .exitLoop => []
    | .continueAfter t => t :: monitoringLoop interval_minutes rest

/-- The `quality_thresholds` dict of `DataQualityService.__init__`. -/
def quality_thresholds : List (String × ℚ) :=
  [("excellent", 95), ("good", 85), ("warning", 70), ("poor", 0)]

/-- Lookup in `quality_thresholds` (every key used is present). -/
def thresholdOf (k : String) : ℚ := (quality_thresholds.lookup k).getD 0

/-- Model of `_get_status_from_score`. -/
def get_status_from_score (score : ℚ) : String :=
  if thresholdOf "excellent" ≤ score then "excellent"
  else if thresholdOf "good" ≤ score then "good"
  else if thresholdOf "warning" ≤ score then "warning"
  else "poor"

/-- Status of a `DataQualityIssues` row. -/
inductive IssueStatus where
  | OPEN
  | RESOLVED
  | IGNORED
deriving DecidableEq

/-- A `DataQualityIssues` row; only the columns `resolve_quality_issue`
touches or the claims mention. -/
structure QIssue where
  id : Nat
  table_name : String
  issue_type : String
  severity : String
  status : IssueStatus
  detected_at : Nat
  resolved_at : Option Nat
  resolution_notes : Option String
deriving DecidableEq

/-- Model of `QualityRepository.resolve_quality_issue`: select the issue by id; if
absent raise ValueError (performing no write — the returned store is the
input store); otherwise set status RESOLVED, stamp `resolved_at` and
`resolution_notes`, and commit.  Returns the raised-or-returned issue and the
post-call store. -/
def resolve_quality_issue (store : List QIssue) (issue_id : Nat)
    (notes : String) (now : Nat) : Except String QIssue × List QIssue :=
  match store.find? (fun i => i.id == issue_id) with
  | none => (.error ("Quality issue " ++ toString issue_id ++ " not found"), store)
  | some issue =>
    let issue' := { issue with
      status := .RESOLVED, resolved_at := some now, resolution_notes := some notes }
    (.ok issue',
     store.map (fun i => if i.id == issue_id then
       { i with status := .RESOLVED, resolved_at := some now,
                resolution_notes := some notes }
     else i))

/-- Concrete fixture: 10 in-window energy records, of which records 1, 2, 3
form one duplicate group sharing `(region, timestamp, energy_type)`; every
record is complete and in the accurate range. -/
def dupPopulation : List EnergyRecord :=
  [⟨1, some "CA", 100, some "electricity", some 10, 100⟩,
   ⟨2, some "CA", 100, some "electricity", some 11, 100⟩,
   ⟨3, some "CA", 100, some "electricity", some 12, 100⟩,
   ⟨4, some "CA", 101, some "electricity", some 13, 101⟩,
   ⟨5, some "CA", 102, some "electricity", some 14, 102⟩,
   ⟨6, some "CA", 103, some "electricity", some 15, 103⟩,
   ⟨7, some "NY", 100, some "electricity", some 16, 100⟩,
   ⟨8, some "NY", 101, some "electricity", some 17, 101⟩,
   ⟨9, some "NY", 102, some "electricity", some 18, 102⟩,
   ⟨10, some "NY", 103, some "electricity", some 19, 103⟩]

/-- Concrete fixture: a weather row whose timestamp lies before the window
start, so the 7-day window holds zero records. -/
def staleWeatherRow : WeatherRecord :=
  ⟨1, some "CA", 0, some 70, some 50, some 30⟩

/-- Concrete fixture: a fault-free session over empty monitored tables.
Both table checks hit their zero-record branch (completeness 0.0 each) while
`_check_system_health` still reports `(100 + 0) / 2 = 50.0`. -/
def emptySession : Session := ⟨[], [], [], false, false, false, false⟩

/-- Concrete fixture: a session whose energy query raises. -/
def energyFailSession : Session := ⟨[], [], [], true, false, false, false⟩

/-- Concrete fixture: a session whose `db.commit()` raises. -/
def commitFailSession : Session := ⟨[], [], [], false, false, false, true⟩

/-- Concrete fixture: a store holding one OPEN issue with id 1. -/
def sampleOpenIssue : QIssue :=
  ⟨1, "energy_consumption", "null_consumption", "HIGH", .OPEN, 0, none, none⟩

/-!  Theorems: one per claim of the specification, with witnesses and
counterexamples as required. -/

/-- Evaluation rule for `round2` when the scaled value sits strictly below
the half-way point above `f`. -/
lemma round2_down (x : ℚ) (f : ℤ) (hle : (f : ℚ) ≤ x * 100)
    (hlt : x * 100 - f < 1/2) : round2 x = (f : ℚ) / 100 := by
  have hf : ⌊x * 100⌋ = f := Int.floor_eq_iff.mpr ⟨hle, by push_cast; linarith⟩
  simp only [round2, hf]
  rw [if_pos (by linarith)]

/-- Evaluation rule for `round2` when the scaled value sits strictly above
the half-way point above `f`. -/
lemma round2_up (x : ℚ) (f : ℤ) (hle : (f : ℚ) ≤ x * 100)
    (hlt1 : x * 100 < (f : ℚ) + 1) (hgt : 1/2 < x * 100 - f) :
    round2 x = ((f : ℚ) + 1) / 100 := by
  have hf : ⌊x * 100⌋ = f := Int.floor_eq_iff.mpr ⟨hle, by push_cast; linarith⟩
  simp only [round2, hf]
  rw [if_neg (by linarith), if_pos (by linarith)]
  push_cast
  ring

/-- C9: `_get_status_from_score` classifies every score by the fixed
thresholds — excellent iff ≥ 95, good iff in [85, 95), warning iff in
[70, 85), poor iff < 70 — and in particular 95.0 → excellent, 94.9 → good,
85.0 → good, 70.0 → warning, 69.9 → poor. -/
theorem get_status_from_score_bands :
    (∀ s : ℚ,
      (get_status_from_score s = "excellent" ↔ 95 ≤ s)
      ∧ (get_status_from_score s = "good" ↔ 85 ≤ s ∧ s < 95)
      ∧ (get_status_from_score s = "warning" ↔ 70 ≤ s ∧ s < 85)
      ∧ (get_status_from_score s = "poor" ↔ s < 70))
    ∧ get_status_from_score 95 = "excellent"
    ∧ get_status_from_score (949/10) = "good"
    ∧ get_status_from_score 85 = "good"
    ∧ get_status_from_score 70 = "warning"
    ∧ get_status_from_score (699/10) = "poor" := by
  have e1 : thresholdOf "excellent" = 95 := by decide
  have e2 : thresholdOf "good" = 85 := by decide
  have e3 : thresholdOf "warning" = 70 := by decide
  have hb : ∀ s : ℚ,
      (get_status_from_score s = "excellent" ↔ 95 ≤ s)
      ∧ (get_status_from_score s = "good" ↔ 85 ≤ s ∧ s < 95)
      ∧ (get_status_from_score s = "warning" ↔ 70 ≤ s ∧ s < 85)
      ∧ (get_status_from_score s = "poor" ↔ s < 70) := by
    intro s
    unfold get_status_from_score
    rw [e1, e2, e3]
    rcases lt_or_le s 70 with h70 | h70
    · rw [if_neg (by linarith), if_neg (by linarith), if_neg (by linarith)]
      refine ⟨?_, ?_, ?_, ?_⟩ <;> simp <;>
        first
          | linarith
          | (intro hx; linarith)
          | (rintro ⟨hx, hy⟩; linarith)
          | (constructor <;> linarith)
    · rcases lt_or_le s 85 with h85 | h85
      · rw [if_neg (by linarith), if_neg (by linarith), if_pos h70]
        refine ⟨?_, ?_, ?_, ?_⟩ <;> simp <;>
          first
            | linarith
            | (intro hx; linarith)
            | (rintro ⟨hx, hy⟩; linarith)
            | (constructor <;> linarith)
      · rcases lt_or_le s 95 with h95 | h95
        · rw [if_neg (by linarith), if_pos h85]
          refine ⟨?_, ?_, ?_, ?_⟩ <;> simp <;>
            first
              | linarith
              | (intro hx; linarith)
              | (rintro ⟨hx, hy⟩; linarith)
              | (constructor <;> linarith)
        · rw [if_pos h95]
          refine ⟨?_, ?_, ?_, ?_⟩ <;> simp <;>
            first
              | linarith
              | (intro hx; linarith)
              | (rintro ⟨hx, hy⟩; linarith)
              | (constructor <;> linarith)
  refine ⟨hb, (hb 95).1.mpr (by norm_num),
    (hb (949/10)).2.1.mpr (by norm_num),
    (hb 85).2.1.mpr (by norm_num),
    (hb 70).2.2.1.mpr (by norm_num),
    (hb (699/10)).2.2.2.mpr (by norm_num)⟩

/-- Witness for C9: the band characterization instantiated at the concrete
score 80.0, together with the concrete 95.0 mapping. -/
theorem get_status_from_score_bands_witness :
    get_status_from_score 95 = "excellent"
    ∧ (get_status_from_score 80 = "warning" ↔ (70 ≤ (80 : ℚ) ∧ (80 : ℚ) < 85)) :=
  ⟨get_status_from_score_bands.2.1, (get_status_from_score_bands.1 80).2.2.1⟩

/-- C7: one iteration of the monitoring loop whose body fails is caught
(the loop continues rather than exiting) and is followed by a 300-second
(5-minute) back-off; the loop then goes on processing later iterations, so a
single failed pass never terminates it. -/
theorem monitoring_loop_survives_failure (interval_minutes : Nat)
    (rest : List BodyOutcome) :
    monitoringStep interval_minutes .err = .continueAfter 300
    ∧ monitoringStep interval_minutes .err ≠ .exitLoop
    ∧ monitoringLoop interval_minutes (.err :: rest)
        = 300 :: monitoringLoop interval_minutes rest := by
  refine ⟨rfl, by simp [monitoringStep], rfl⟩

/-- Witness for C7 at the default 60-minute cadence and a one-iteration
trace. -/
theorem monitoring_loop_survives_failure_witness :
    monitoringStep 60 .err = .continueAfter 300
    ∧ monitoringStep 60 .err ≠ .exitLoop
    ∧ monitoringLoop 60 [.err] = [300] := by
  have h := monitoring_loop_survives_failure 60 []
  exact ⟨h.1, h.2.1, by rw [h.2.2]; rfl⟩

/-- C6: the monitor has the two boolean states STOPPED/RUNNING with the
task-count invariant (one live task iff RUNNING): start on a RUNNING monitor
is a no-op, a started monitor has exactly one active task, starting twice
equals starting once, stop on a STOPPED monitor is a no-op, and after stop
`get_monitoring_status` reports `is_running = false`. -/
theorem monitor_lifecycle (m : QualityMonitor) (now : Nat) (h : MonitorInv m) :
    MonitorInv (start_monitoring m)
    ∧ (start_monitoring m).is_running = true
    ∧ (start_monitoring m).activeTasks = 1
    ∧ (m.is_running = true → start_monitoring m = m)
    ∧ start_monitoring (start_monitoring m) = start_monitoring m
    ∧ MonitorInv (stop_monitoring m)
    ∧ (stop_monitoring m).activeTasks = 0
    ∧ (m.is_running = false → stop_monitoring m = m)
    ∧ (get_monitoring_status (stop_monitoring m) now).is_running = false := by
  obtain ⟨ir, tasks, ci, th⟩ := m
  unfold MonitorInv at h
  cases ir <;> simp_all [MonitorInv, start_monitoring, stop_monitoring,
    get_monitoring_status]

/-- Witness for C6 at the freshly constructed monitor. -/
theorem monitor_lifecycle_witness :
    MonitorInv initialMonitor
    ∧ (MonitorInv (start_monitoring initialMonitor)
       ∧ (start_monitoring initialMonitor).is_running = true
       ∧ (start_monitoring initialMonitor).activeTasks = 1
       ∧ (initialMonitor.is_running = true →
            start_monitoring initialMonitor = initialMonitor)
       ∧ start_monitoring (start_monitoring initialMonitor)
           = start_monitoring initialMonitor
       ∧ MonitorInv (stop_monitoring initialMonitor)
       ∧ (stop_monitoring initialMonitor).activeTasks = 0
       ∧ (initialMonitor.is_running = false →
            stop_monitoring initialMonitor = initialMonitor)
       ∧ (get_monitoring_status (stop_monitoring initialMonitor) 0).is_running
           = false) :=
  ⟨by decide, monitor_lifecycle initialMonitor 0 (by decide)⟩

/-- C4: after a pass, alert evaluation emits exactly one HIGH-severity
system-level issue iff `overall_score < alert_threshold`; independently, per
monitored table, one MEDIUM issue per offending dimension iff
`completeness < 80` or `accuracy < 85`; and an overall score of 75.0 against
the default threshold 70.0 emits no HIGH issue. -/
theorem check_quality_alerts_spec (th overall eC eA wC wA : ℚ) :
    ((check_quality_alerts th overall eC eA wC wA).filter
        (fun a => decide (a.severity = "HIGH"))).length
      = (if overall < th then 1 else 0)
    ∧ (∀ a ∈ check_quality_alerts th overall eC eA wC wA,
        a.severity = "HIGH" → a.table_name = "system_monitoring")
    ∧ ((check_quality_alerts th overall eC eA wC wA).filter
        (fun a => decide (a.severity = "MEDIUM"))).length
      = (if eC < 80 then 1 else 0) + (if eA < 85 then 1 else 0)
        + (if wC < 80 then 1 else 0) + (if wA < 85 then 1 else 0)
    ∧ ((check_quality_alerts default_alert_threshold 75 eC eA wC wA).filter
        (fun a => decide (a.severity = "HIGH"))).length = 0 := by
  unfold check_quality_alerts tableAlerts default_alert_threshold
  have h75 : ¬((75 : ℚ) < 70) := by norm_num
  rw [if_neg h75]
  split_ifs <;> simp_all [List.filter]

/-- Witness for C4: an overall score of 65.0 against the default threshold
70.0 with healthy per-table scores yields exactly one HIGH alert and no
MEDIUM alert. -/
theorem check_quality_alerts_witness :
    ((check_quality_alerts 70 65 90 90 90 90).filter
        (fun a => decide (a.severity = "HIGH"))).length = 1
    ∧ ((check_quality_alerts 70 65 90 90 90 90).filter
        (fun a => decide (a.severity = "MEDIUM"))).length = 0 := by
  have h := check_quality_alerts_spec 70 65 90 90 90 90
  constructor
  · rw [h.1, if_pos (by norm_num : (65 : ℚ) < 70)]
  · rw [h.2.2.1, if_neg (by norm_num : ¬((90 : ℚ) < 80)),
      if_neg (by norm_num : ¬((90 : ℚ) < 85))]

/-- C8: resolving a nonexistent issue id raises a not-found error and writes
nothing; resolving an existing issue returns it with status RESOLVED and
`resolved_at` / `resolution_notes` stamped; the operation can only ever
produce RESOLVED issues, and it never flips any stored issue to OPEN. -/
theorem resolve_quality_issue_spec (store : List QIssue) (issue_id : Nat)
    (notes : String) (now : Nat) :
    (store.find? (fun i => i.id == issue_id) = none →
      resolve_quality_issue store issue_id notes now
        = (.error ("Quality issue " ++ toString issue_id ++ " not found"),
           store))
    ∧ (∀ i, store.find? (fun i => i.id == issue_id) = some i →
        (resolve_quality_issue store issue_id notes now).1
          = .ok { i with status := .RESOLVED, resolved_at := some now,
                         resolution_notes := some notes })
    ∧ (∀ r, (resolve_quality_issue store issue_id notes now).1 = .ok r →
        r.status = .RESOLVED)
    ∧ (∀ j, j ∈ (resolve_quality_issue store issue_id notes now).2 →
        j.status = .OPEN → j ∈ store) := by
  unfold resolve_quality_issue
  cases hfind : store.find? (fun i => i.id == issue_id) with
  | none =>
      refine ⟨fun _ => rfl, ?_, ?_, ?_⟩
      · intro i hi; simp at hi
      · intro r hr; simp at hr
      · intro j hj _; exact hj
  | some iss =>
      refine ⟨fun hnone => by simp at hnone, ?_, ?_, ?_⟩
      · intro i hi
        injection hi with hi
        subst hi
        rfl
      · intro r hr
        simp only [Except.ok.injEq] at hr
        subst hr
        rfl
      · intro j hj hopen
        simp only [List.mem_map] at hj
        obtain ⟨i, hi, hji⟩ := hj
        by_cases hid : (i.id == issue_id) = true
        · rw [if_pos hid] at hji
          subst hji
          simp at hopen
        · rw [if_neg hid] at hji
          subst hji
          exact hi

/-- Witness for C8: resolving id 2 in a store holding only OPEN issue 1 fails
not-found and leaves the store unchanged; resolving id 1 yields the issue
with status RESOLVED and both stamps set. -/
theorem resolve_quality_issue_witness :
    [sampleOpenIssue].find? (fun i => i.id == 2) = none
    ∧ resolve_quality_issue [sampleOpenIssue] 2 "wontfix" 5
        = (.error ("Quality issue " ++ toString 2 ++ " not found"),
           [sampleOpenIssue])
    ∧ [sampleOpenIssue].find? (fun i => i.id == 1) = some sampleOpenIssue
    ∧ (resolve_quality_issue [sampleOpenIssue] 1 "fixed" 5).1
        = .ok { sampleOpenIssue with
                status := IssueStatus.RESOLVED
                resolved_at := some 5
                resolution_notes := some "fixed" } := by
  refine ⟨by decide, (resolve_quality_issue_spec [sampleOpenIssue] 2 "wontfix" 5).1 (by decide),
    by decide, (resolve_quality_issue_spec [sampleOpenIssue] 1 "fixed" 5).2.1
      sampleOpenIssue (by decide)⟩

/-- C3: for every non-empty energy population, the consistency score as
computed at its defining line equals `(1 - duplicate_count/total) * 100`
with `duplicate_count` the sum over duplicate `(region, timestamp, type)`
groups of `group_size - 1`; on the concrete 10-record population with one
group of 3 duplicates, `duplicate_count = 2` and the check reports a
consistency score of 80.0. -/
theorem consistency_score_spec (rs : List EnergyRecord) (h : rs ≠ []) :
    consistency_score rs
      = (1 - (duplicate_count rs : ℚ) / (rs.length : ℚ)) * 100
    ∧ duplicate_count dupPopulation = 2
    ∧ consistency_score dupPopulation = 80
    ∧ getScore (check_energy_data_quality dupPopulation 0 1000)
        "consistency_score" 0 = 80 := by
  have hdup : duplicate_count dupPopulation = 2 := by decide
  have hlen : dupPopulation.length = 10 := by decide
  have hcons : consistency_score dupPopulation = 80 := by
    simp only [consistency_score, hdup, hlen]
    norm_num
  have h80 : round2 (80 : ℚ) = 80 := by
    rw [round2_down (80 : ℚ) 8000 (by norm_num) (by norm_num)]
    norm_num
  refine ⟨?_, hdup, hcons, ?_⟩
  · have hl : 0 < rs.length := List.length_pos.mpr h
    have hl' : (rs.length : ℚ) ≠ 0 := by
      exact_mod_cast Nat.pos_iff_ne_zero.mp hl
    simp only [consistency_score]
    rw [if_pos hl]
    field_simp
  · have hfil : dupPopulation.filter (energyInWindow 0) = dupPopulation := by
      decide
    simp [check_energy_data_quality, hfil, hlen, getScore, List.lookup,
      hcons, h80]

/-- Witness for C3 at the concrete duplicate population. -/
theorem consistency_score_witness :
    dupPopulation ≠ []
    ∧ (consistency_score dupPopulation
        = (1 - (duplicate_count dupPopulation : ℚ) / (dupPopulation.length : ℚ))
            * 100
       ∧ duplicate_count dupPopulation = 2
       ∧ consistency_score dupPopulation = 80
       ∧ getScore (check_energy_data_quality dupPopulation 0 1000)
           "consistency_score" 0 = 80) :=
  ⟨by decide, consistency_score_spec dupPopulation (by decide)⟩

/-- C2 counterexample: the weather check on a window holding zero records
(one row, timestamp before the window start) returns a dict with no
`consistency_score` entry at all, refuting the claim that every monitored
table reports `consistency == 0.0` on an empty window. -/
theorem weather_zero_consistency_counterexample :
    (check_weather_data_quality [staleWeatherRow] 5).lookup "consistency_score"
      = none
    ∧ getCount (check_weather_data_quality [staleWeatherRow] 5)
        "total_records" 99 = 0 := by
  decide

/-- C2 (amended): on a window with zero records the energy check returns
completeness = accuracy = consistency = 0.0 with an empty issue list, and the
weather check returns completeness = accuracy = 0.0 with an empty issue list
but no consistency entry (the weather check never computes one); both results
are the literal zero dicts, so no division by zero is performed. -/
theorem zero_record_scores (erows : List EnergyRecord)
    (wrows : List WeatherRecord) (start30 start7 now : Nat)
    (he : (erows.filter (energyInWindow start30)).length = 0)
    (hw : (wrows.filter (fun r => decide (start7 ≤ r.timestamp))).length = 0) :
    check_energy_data_quality erows start30 now
      = [("completeness_score", .q 0), ("accuracy_score", .q 0),
         ("consistency_score", .q 0), ("total_records", .n 0),
         ("issues", .issues [])]
    ∧ check_weather_data_quality wrows start7
      = [("completeness_score", .q 0), ("accuracy_score", .q 0),
         ("total_records", .n 0), ("issues", .issues [])] := by
  unfold check_energy_data_quality check_weather_data_quality
  rw [if_pos he, if_pos hw]
  exact ⟨rfl, rfl⟩

/-- Witness for C2 (amended) at an energy table with one out-of-window row
and the stale weather fixture. -/
theorem zero_record_scores_witness :
    (([(⟨1, some "CA", 2, some "electricity", some 5, 2⟩ : EnergyRecord)].filter
        (energyInWindow 5)).length = 0
     ∧ ([staleWeatherRow].filter (fun r => decide (5 ≤ r.timestamp))).length = 0)
    ∧ (check_energy_data_quality
          [(⟨1, some "CA", 2, some "electricity", some 5, 2⟩ : EnergyRecord)] 5 9
        = [("completeness_score", .q 0), ("accuracy_score", .q 0),
           ("consistency_score", .q 0), ("total_records", .n 0),
           ("issues", .issues [])]
       ∧ check_weather_data_quality [staleWeatherRow] 5
        = [("completeness_score", .q 0), ("accuracy_score", .q 0),
           ("total_records", .n 0), ("issues", .issues [])]) :=
  ⟨⟨by decide, by decide⟩,
   zero_record_scores [⟨1, some "CA", 2, some "electricity", some 5, 2⟩]
     [staleWeatherRow] 5 5 9 (by decide) (by decide)⟩

/-- Helper: `_calculate_overall_score` on the three-element list built by
`run_comprehensive_quality_check` is the rounded arithmetic mean. -/
lemma calculate_overall_score_three (a b c : ℚ) :
    calculate_overall_score [some a, some b, some c]
      = round2 ((a + b + c) / 3) := by
  simp [calculate_overall_score]
  congr 1
  ring

/-- C1 counterexample: on a fault-free session over empty tables, the pass's
per-table completeness scores are both 0.0 yet the returned overall_score is
16.67 (the system-health score of 50.0 is folded into the average), while the
mean of the two per-table completeness scores alone is 0.0. -/
theorem overall_score_counterexample :
    (run_comprehensive_quality_check emptySession 0 0 0).1.map
        (fun ov => (getScore ov.energy_data "completeness_score" 0,
                    getScore ov.weather_data "completeness_score" 0,
                    ov.overall_score))
      = .ok (0, 0, 1667/100)
    ∧ ((1667 : ℚ)/100) ≠ (0 + 0)/2 := by
  have h503 : round2 (50/3 : ℚ) = 1667/100 := by
    rw [round2_up (50/3 : ℚ) 1666 (by norm_num) (by norm_num) (by norm_num)]
    norm_num
  have h50 : round2 ((100 : ℚ) / 2) = 50 := by
    rw [round2_down ((100 : ℚ) / 2) 5000 (by norm_num) (by norm_num)]
    norm_num
  refine ⟨?_, by norm_num⟩
  simp [run_comprehensive_quality_check, checkEnergyDb, checkWeatherDb,
    check_energy_data_quality, check_weather_data_quality,
    check_system_health, emptySession, Except.map, getScore, List.lookup,
    calculate_overall_score_three]
  rw [h50]
  exact h503

/-- C1 (amended): whenever both table queries succeed, the pass returns
successfully and its overall_score is the unweighted arithmetic mean, rounded
to two decimals, of THREE components: the energy completeness score, the
weather completeness score, and the system-health score. -/
theorem overall_score_mean_of_three (s : Session) (start30 start7 now : Nat)
    (he : s.failEnergyQuery = false) (hw : s.failWeatherQuery = false) :
    ∃ ov, (run_comprehensive_quality_check s start30 start7 now).1 = .ok ov
      ∧ ov.overall_score = round2
          ((getScore ov.energy_data "completeness_score" 0
            + getScore ov.weather_data "completeness_score" 0
            + ov.system_health.health_score) / 3) := by
  have hrun : (run_comprehensive_quality_check s start30 start7 now).1
      = .ok ⟨check_energy_data_quality s.energyRows start30 now,
             check_weather_data_quality s.weatherRows start7,
             check_system_health s now,
             calculate_overall_score
               [some (getScore (check_energy_data_quality s.energyRows
                        start30 now) "completeness_score" 0),
                some (getScore (check_weather_data_quality s.weatherRows
                        start7) "completeness_score" 0),
                some (check_system_health s now).health_score],
             now⟩ := by
    simp [run_comprehensive_quality_check, checkEnergyDb, checkWeatherDb,
      he, hw]
  exact ⟨_, hrun, calculate_overall_score_three _ _ _⟩

/-- Witness for C1 (amended) at the fault-free empty-table session. -/
theorem overall_score_mean_of_three_witness :
    (emptySession.failEnergyQuery = false
     ∧ emptySession.failWeatherQuery = false)
    ∧ ∃ ov, (run_comprehensive_quality_check emptySession 0 0 0).1 = .ok ov
        ∧ ov.overall_score = round2
            ((getScore ov.energy_data "completeness_score" 0
              + getScore ov.weather_data "completeness_score" 0
              + ov.system_health.health_score) / 3) :=
  ⟨⟨rfl, rfl⟩, overall_score_mean_of_three emptySession 0 0 0 rfl rfl⟩

/-- C5: if the energy or the weather sub-check raises, the whole pass fails
with that error and the session's committed metric rows are exactly what they
were before the pass — no partial commit, no torn state. -/
theorem run_check_atomic_on_subcheck_failure (s : Session)
    (start30 start7 now : Nat)
    (h : s.failEnergyQuery = true ∨ s.failWeatherQuery = true) :
    (∃ e, (run_comprehensive_quality_check s start30 start7 now).1 = .error e)
    ∧ (run_comprehensive_quality_check s start30 start7 now).2 = s := by
  rcases h with h | h
  · refine ⟨⟨"energy query failed", ?_⟩, ?_⟩ <;>
      simp [run_comprehensive_quality_check, checkEnergyDb, h]
  · cases hE : s.failEnergyQuery with
    | true =>
        refine ⟨⟨"energy query failed", ?_⟩, ?_⟩ <;>
          simp [run_comprehensive_quality_check, checkEnergyDb, hE]
    | false =>
        refine ⟨⟨"weather query failed", ?_⟩, ?_⟩ <;>
          simp [run_comprehensive_quality_check, checkEnergyDb,
            checkWeatherDb, hE, h]

/-- Witness for C5 at a session whose energy query raises. -/
theorem run_check_atomic_witness :
    (energyFailSession.failEnergyQuery = true
     ∨ energyFailSession.failWeatherQuery = true)
    ∧ ((∃ e, (run_comprehensive_quality_check energyFailSession 0 0 0).1
          = .error e)
       ∧ (run_comprehensive_quality_check energyFailSession 0 0 0).2
          = energyFailSession) :=
  ⟨Or.inl rfl,
   run_check_atomic_on_subcheck_failure energyFailSession 0 0 0 (Or.inl rfl)⟩

/-- C10: when both sub-checks succeed but persisting the metric rows fails,
the transaction is rolled back (the committed metric rows are unchanged) and
the exception is swallowed: the pass still returns the same successful result
it would have returned had the commit succeeded. -/
theorem store_failure_rolled_back_and_swallowed (s : Session)
    (start30 start7 now : Nat)
    (he : s.failEnergyQuery = false) (hw : s.failWeatherQuery = false)
    (hc : s.failCommit = true) :
    (∃ ov, (run_comprehensive_quality_check s start30 start7 now).1 = .ok ov)
    ∧ (run_comprehensive_quality_check s start30 start7 now).2.metrics
        = s.metrics
    ∧ (run_comprehensive_quality_check s start30 start7 now).1
        = (run_comprehensive_quality_check { s with failCommit := false }
            start30 start7 now).1 := by
  have hsys : ∀ (b1 b2 b3 : Bool) (ms : List MetricRow),
      check_system_health
        ⟨s.energyRows, s.weatherRows, ms, b1, b2, s.failSystemQuery, b3⟩ now
      = check_system_health s now := by
    intro b1 b2 b3 ms
    simp [check_system_health]
  have hrun : run_comprehensive_quality_check s start30 start7 now
      = (.ok ⟨check_energy_data_quality s.energyRows start30 now,
              check_weather_data_quality s.weatherRows start7,
              check_system_health s now,
              calculate_overall_score
                [some (getScore (check_energy_data_quality s.energyRows
                         start30 now) "completeness_score" 0),
                 some (getScore (check_weather_data_quality s.weatherRows
                         start7) "completeness_score" 0),
                 some (check_system_health s now).health_score],
              now⟩, s) := by
    simp [run_comprehensive_quality_check, checkEnergyDb, checkWeatherDb,
      store_quality_metrics, he, hw, hc]
  have hrun' : (run_comprehensive_quality_check { s with failCommit := false }
      start30 start7 now).1
      = .ok ⟨check_energy_data_quality s.energyRows start30 now,
             check_weather_data_quality s.weatherRows start7,
             check_system_health s now,
             calculate_overall_score
               [some (getScore (check_energy_data_quality s.energyRows
                        start30 now) "completeness_score" 0),
                some (getScore (check_weather_data_quality s.weatherRows
                        start7) "completeness_score" 0),
                some (check_system_health s now).health_score],
             now⟩ := by
    simp [run_comprehensive_quality_check, checkEnergyDb, checkWeatherDb,
      he, hw, hsys]
  refine ⟨⟨_, by rw [hrun]⟩, by rw [hrun], by rw [hrun, hrun']⟩

/-- Witness for C10 at a session whose commit raises. -/
theorem store_failure_witness :
    (commitFailSession.failEnergyQuery = false
     ∧ commitFailSession.failWeatherQuery = false
     ∧ commitFailSession.failCommit = true)
    ∧ ((∃ ov, (run_comprehensive_quality_check commitFailSession 0 0 0).1
          = .ok ov)
       ∧ (run_comprehensive_quality_check commitFailSession 0 0 0).2.metrics
          = commitFailSession.metrics
       ∧ (run_comprehensive_quality_check commitFailSession 0 0 0).1
          = (run_comprehensive_quality_check
              { commitFailSession with failCommit := false } 0 0 0).1) :=
  ⟨⟨rfl, rfl, rfl⟩,
   store_failure_rolled_back_and_swallowed commitFailSession 0 0 0 rfl rfl rfl⟩

end EnergyPipeline
